import Mathlib

/-! k8s-sample-go-app: the personalities read API (`app/api.go`)

A shallow embedding of `app/api.go`.  Pure code becomes Lean functions; every
call the program makes to a collaborator (file system, YAML decoder, TLS
registry, `database/sql`, the echo server) is recorded as an `Event` in a
trace that the embedded function returns next to its Go result, so ordering
and "exactly once" properties can be stated on the trace.

Go values are modelled as follows.

* `int64` is `Int`; wrap-around is written explicitly with `% 2 ^ 64`.
* A Go `string` is a Lean `String`.  `strconv` inspects bytes; every byte of a
  non-ASCII character is `≥ 0x80` and so falls in the same (rejecting) branch
  as the character itself does here.
* A Go `error` result is `Option Error` (`none` is `nil`).
* A Go slice is `Slice α := Option (List α)`; `none` is the `nil` slice.
-/

namespace App

/-! ## Data model -/

/-- A `time.Time` instant (nanoseconds since the Unix epoch). -/
structure Time where
  unixNano : Int
deriving DecidableEq, Repr

/-- The `DBSource` struct of `api.go`. -/
structure DBSource where
  Host : String
  Port : String
  User : String
  Password : String
  Database : String
deriving DecidableEq, Repr

/-- The `Personality` struct of `api.go`. -/
structure Personality where
  ID : Int
  Name : String
  Email : String
  CreatedAt : Time
  UpdatedAt : Time
deriving DecidableEq, Repr

/-- The two sentinel errors of `strconv` (`ErrSyntax`, `ErrRange`). -/
inductive NumErrKind where
  | ErrSyntax
  | ErrRange
deriving DecidableEq, Repr

/-- Go `error` values, by dynamic type: `*strconv.NumError`, `*echo.HTTPError`
(the only type echo's error handler looks for), and any other error (I/O,
YAML, driver), identified by its message. -/
inductive Error where
  | NumError (Func : String) (Num : String) (Err : NumErrKind)
  | HTTPError (Code : Nat) (Message : String)
  | other (msg : String)
deriving DecidableEq, Repr

/-- A Go slice: `none` is the `nil` slice, `some xs` a non-nil slice. -/
abbrev Slice (α : Type) := Option (List α)

/-- Go `append(s, x)`: appending to the `nil` slice allocates. -/
def Slice.append {α : Type} (s : Slice α) (x : α) : Slice α :=
  match s with
  | none => some [x]
  | some xs => some (xs ++ [x])

/-- The elements of a slice; the `nil` slice has none. -/
def Slice.toList {α : Type} (s : Slice α) : List α :=
  match s with
  | none => []
  | some xs => xs

/-- Go `len(s)`. -/
def Slice.len {α : Type} (s : Slice α) : Nat := (Slice.toList s).length

/-! ## `strconv.ParseInt(s, 10, 64)` -/

/-- The largest `uint64`. -/
def maxUint64 : Nat := 2 ^ 64 - 1

/-- The `lower` helper of strconv: `c | ('x' - 'X')`. -/
def lower (c : Char) : Nat := c.toNat ||| 0x20

/-- The digit loop of `strconv.ParseUint` for base 10 and bit size 64: `n` is
the accumulator; the result is the returned value with the error kind, if
any.  Underscores are only legal for base 0, so here they reach the default
branch. -/
def parseUintLoop : List Char → Nat → Nat × Option NumErrKind
  | [], n => (n, none)
  | c :: cs, n =>
    let d? : Option Nat :=
      if '0'.toNat ≤ c.toNat ∧ c.toNat ≤ '9'.toNat then some (c.toNat - '0'.toNat)
      else if 'a'.toNat ≤ lower c ∧ lower c ≤ 'z'.toNat then some (lower c - 'a'.toNat + 10)
      else none
    match d? with
    | none => (0, some .ErrSyntax)
    | some d =>
      if d ≥ 10 then (0, some .ErrSyntax)
      else if n ≥ maxUint64 / 10 + 1 then (maxUint64, some .ErrRange)
      else
        let n10 := (n * 10) % 2 ^ 64
        let n1 := (n10 + d) % 2 ^ 64
        if n1 < n10 ∨ n1 > maxUint64 then (maxUint64, some .ErrRange)
        else parseUintLoop cs n1

/-- Model of `strconv.ParseUint(s, 10, 64)`. -/
def ParseUint (s : List Char) : Nat × Option NumErrKind :=
  if s = [] then (0, some .ErrSyntax) else parseUintLoop s 0

/-- Conversion `int64(x)` of an integer: two's-complement wrap-around. -/
def toInt64 (x : Int) : Int := (x + 2 ^ 63) % 2 ^ 64 - 2 ^ 63

/-- Model of `strconv.ParseInt(s, 10, 64)`: the value and the error. -/
def ParseInt (s : String) : Int × Option Error :=
  if s = "" then (0, some (.NumError "ParseInt" s .ErrSyntax))
  else
    let (neg, rest) : Bool × List Char :=
      match s.data with
      | '+' :: t => (false, t)
      | '-' :: t => (true, t)
      | l => (false, l)
    match ParseUint rest with
    | (_, some .ErrSyntax) => (0, some (.NumError "ParseInt" s .ErrSyntax))
    | (un, _) =>
      let cutoff : Nat := 2 ^ 63
      if !neg && decide (un ≥ cutoff) then
        ((cutoff : Int) - 1, some (.NumError "ParseInt" s .ErrRange))
      else if neg && decide (un > cutoff) then
        (-(cutoff : Int), some (.NumError "ParseInt" s .ErrRange))
      else
        let n := toInt64 (un : Int)
        (if neg then toInt64 (-n) else n, none)

/-! ## `fmt.Sprintf("%d", id)` -/

/-- The byte `'0' + d`. -/
def digitByte (d : Nat) : Char := Char.ofNat ('0'.toNat + d)

/-- The digit loop of `fmt`'s `fmtInteger` for base 10, writing the buffer
from the right: `for u >= 10 { ... }` followed by the last digit.  The first
argument bounds the number of iterations (a `uint64` has at most 20 digits). -/
def fmtDigits : Nat → Nat → List Char → List Char
  | 0, u, buf => digitByte u :: buf
  | fuel + 1, u, buf =>
    if u ≥ 10 then
      let next := u / 10
      fmtDigits fuel next (digitByte (u - next * 10) :: buf)
    else digitByte u :: buf

/-- Model of the verb `%d` applied to an `int64`: `u := uint64(v)`, negated
when `v` is negative, then the digits, then the sign. -/
def fmtInteger (v : Int) : String :=
  let negative := decide (v < 0)
  let u : Nat := (if negative then -v else v).toNat % 2 ^ 64
  String.mk ((if negative then ['-'] else []) ++ fmtDigits 20 u [])

/-! ## Collaborators and the effect trace -/

/-- The value a Go `panic` is raised with. -/
inductive PanicValue where
  /-- The call `panic(err.Error())` of `main`, for the error `err`. -/
  | errorString (err : Error)
  /-- The runtime panic of a nil pointer dereference. -/
  | nilDereference
deriving DecidableEq, Repr

/-- What `c.String` / `c.JSON` write as the response body.  For a slice,
`encoding/json` encodes the `nil` slice as the JSON value `null` and a non-nil
slice as a JSON array with one element per item. -/
inductive Body where
  | text (s : String)
  | jsonNull
  | jsonArray (items : List Personality)
deriving DecidableEq, Repr

/-- The calls the program makes to its collaborators, in program order. -/
inductive Event where
  | use (middleware : String)
  | readFile (path : String)
  | registerTLS (name : String)
  | sqlOpen (driver : String) (dsn : String)
  | setMaxOpenConns (n : Int)
  | setMaxIdleConns (n : Int)
  | setConnMaxLifetime (nanoseconds : Int)
  | route (method : String) (path : String)
  | start (address : String)
  | panic (value : PanicValue)
  | query (sql : String)
  | logTook (name : String)
  | next
  | scan
  | close
  | respond (status : Nat) (body : Body)
deriving DecidableEq, Repr

/-- The five columns `id, name, mail, created, modified` of a result row, as
`rows.Scan` decodes them into `*int64, *string, *string, *time.Time,
*time.Time`, in that order. -/
structure Columns where
  id : Int
  name : String
  mail : String
  created : Time
  modified : Time
deriving DecidableEq, Repr

/-- A result row, seen through `rows.Scan` with the five destinations above:
either every column decodes, or `Scan` returns an error. -/
inductive Row where
  | ok (cols : Columns)
  | bad (err : Error)
deriving DecidableEq, Repr

/-- A `*sql.Rows` cursor: the rows `Next` yields, and how iteration ends.
`Next` returns `false` both at the end of the result set (`lasterr = none`)
and when the driver fails while fetching (`lasterr = some e`, what
`rows.Err()` would report). -/
structure Rows where
  rows : List Row
  lasterr : Option Error
deriving DecidableEq, Repr

/-- The global `db` handle, as far as the request path uses it: `db.Query`. -/
structure DB where
  Query : String → Except Error Rows

/-- The world `initiDB` runs in: the file system, the PEM and YAML decoders,
the TLS registry of the MySQL driver and `sql.Open`. -/
structure Env where
  /-- Model of `ioutil.ReadFile`. -/
  ReadFile : String → Except Error String
  /-- Model of `rootCertPool.AppendCertsFromPEM`: whether a certificate was parsed. -/
  AppendCertsFromPEM : String → Bool
  /-- Model of `mysql.RegisterTLSConfig`, by profile name. -/
  RegisterTLSConfig : String → Option Error
  /-- Model of `yaml.Unmarshal(f, &src)` with `src` a `*DBSource` pointing to a
  zero struct: an error, or the pointer afterwards (`none` is `nil`, which a
  `null` document stores). -/
  Unmarshal : String → Except Error (Option DBSource)
  /-- Model of `sql.Open`, by driver name and data source name.  The MySQL
  driver parses the data source name here and rejects a `tls=` profile that is
  not in its registry, so a world fixes this result together with what it lets
  `registerTLSConfig` register. -/
  Open : String → String → Option Error

/-! ## The query path -/

/-- The constant `dbSourceFilePath`. -/
def dbSourceFilePath : String := "/etc/credentials/db-connection.yml"

/-- The constant `pemFilePath`. -/
def pemFilePath : String := "/etc/credentials/rds-ca-root.pem"

/-- Function `runQuery`: one `db.Query`, then the deferred `timeTrack`. -/
def runQuery (db : DB) (sql name : String) : Except Error Rows × List Event :=
  (db.Query sql, [.query sql, .logTook name])

/-- The `Personality` filled in by
`rows.Scan(&p.ID, &p.Name, &p.Email, &p.CreatedAt, &p.UpdatedAt)`. -/
def scanInto (c : Columns) : Personality :=
  { ID := c.id, Name := c.name, Email := c.mail, CreatedAt := c.created, UpdatedAt := c.modified }

/-- The `for rows.Next() { ... }` loop of `runPersonalityQuery`, from the rows
not yet visited and the current value of `personalities`.  Leaving the loop
does not consult `rows.Err()`. -/
def scanLoop : List Row → Slice Personality → (Slice Personality × Option Error) × List Event
  | [], personalities => ((personalities, none), [.next])
  | .bad err :: _, _ => ((none, some err), [.next, .scan])
  | .ok c :: rest, personalities =>
    let (r, tr) := scanLoop rest (Slice.append personalities (scanInto c))
    (r, .next :: .scan :: tr)

/-- Function `runPersonalityQuery`; the deferred `rows.Close()` runs last. -/
def runPersonalityQuery (db : DB) (sql name : String) :
    (Slice Personality × Option Error) × List Event :=
  match runQuery db sql name with
  | (.error err, tr) => ((none, some err), tr)
  | (.ok rows, tr) =>
    let (r, tr2) := scanLoop rows.rows none
    (r, tr ++ tr2 ++ [.close])

/-- The format string of `getPersonalityByID` up to the verb `%d`. -/
def byIDSelect : String := "SELECT id, name, mail, created, modified FROM t_speaker WHERE id = "

/-- Function `getPersonalityByID`. -/
def getPersonalityByID (db : DB) (id : Int) : (Slice Personality × Option Error) × List Event :=
  runPersonalityQuery db (byIDSelect ++ fmtInteger id) "getPersonalityByID"

/-- Function `getAllPersonalities`. -/
def getAllPersonalities (db : DB) : (Slice Personality × Option Error) × List Event :=
  runPersonalityQuery db "SELECT id, name, mail, created, modified FROM t_speaker"
    "getAllPersonalities"

/-! ## The HTTP handlers -/

/-- What a handler hands back to echo: `nil` after writing a response, or an
error. -/
inductive Outcome where
  | responded (status : Nat) (body : Body)
  | failed (err : Error)
deriving DecidableEq, Repr

/-- The body `c.JSON` writes for a slice of personalities. -/
def jsonBody (result : Slice Personality) : Body :=
  match result with
  | none => .jsonNull
  | some items => .jsonArray items

/-- Model of `c.JSON(code, result)`. -/
def JSON (code : Nat) (result : Slice Personality) : Outcome × List Event :=
  (.responded code (jsonBody result), [.respond code (jsonBody result)])

/-- The handler of `GET /`. -/
def helloHandler : Outcome × List Event :=
  (.responded 200 (.text "Hello k8s!"), [.respond 200 (.text "Hello k8s!")])

/-- The handler of `GET /personalities/:id`; `param` is `c.Param("id")`. -/
def personalityByIDHandler (db : DB) (param : String) : Outcome × List Event :=
  match ParseInt param with
  | (_, some err) => (.failed err, [])
  | (id, none) =>
    match getPersonalityByID db id with
    | ((_, some err), tr) => (.failed err, tr)
    | ((result, none), tr) =>
      let (out, tr2) := JSON 200 result
      (out, tr ++ tr2)

/-- The handler of `GET /personalities`. -/
def allPersonalitiesHandler (db : DB) : Outcome × List Event :=
  match getAllPersonalities db with
  | ((_, some err), tr) => (.failed err, tr)
  | ((result, none), tr) =>
    let (out, tr2) := JSON 200 result
    (out, tr ++ tr2)

/-- The status code echo's `DefaultHTTPErrorHandler` answers with when a
handler returns `err`: the code of an `*echo.HTTPError`, and
`http.StatusInternalServerError` for every other error. -/
def DefaultHTTPErrorHandler (err : Error) : Nat :=
  match err with
  | .HTTPError code _ => code
  | _ => 500

/-- The status code the client receives for a handler outcome. -/
def statusOf (out : Outcome) : Nat :=
  match out with
  | .responded status _ => status
  | .failed err => DefaultHTTPErrorHandler err

/-! ## Bootstrap -/

/-- Function `registerTLSConfig`.  When `AppendCertsFromPEM` reports failure
the function returns `err`, which is `nil` at that point. -/
def registerTLSConfig (env : Env) : Option Error × List Event :=
  match env.ReadFile pemFilePath with
  | .error err => (some err, [.readFile pemFilePath])
  | .ok pem =>
    if !env.AppendCertsFromPEM pem then (none, [.readFile pemFilePath])
    else (env.RegisterTLSConfig "custom", [.readFile pemFilePath, .registerTLS "custom"])

/-- How a call of `initiDB` ends. -/
inductive InitResult where
  | returned (err : Option Error)
  | panicked (value : PanicValue)
deriving DecidableEq, Repr

/-- The data source name built by `fmt.Sprintf` in `initiDB`. -/
def dataSourceName (src : DBSource) : String :=
  src.User ++ ":" ++ src.Password ++ "@tcp(" ++ src.Host ++ ":" ++ src.Port ++ ")/" ++
    src.Database ++ "?tls=custom&parseTime=true"

/-- The constant `time.Second`, in nanoseconds. -/
def Second : Int := 1000000000

/-- Function `initiDB`.  The result of `registerTLSConfig()` is discarded. -/
def initiDB (env : Env) : InitResult × List Event :=
  let tr0 := (registerTLSConfig env).2
  match env.ReadFile dbSourceFilePath with
  | .error err => (.returned (some err), tr0 ++ [.readFile dbSourceFilePath])
  | .ok f =>
    match env.Unmarshal f with
    | .error err => (.returned (some err), tr0 ++ [.readFile dbSourceFilePath])
    | .ok none => (.panicked .nilDereference, tr0 ++ [.readFile dbSourceFilePath])
    | .ok (some src) =>
      let dsn := dataSourceName src
      match env.Open "mysql" dsn with
      | some err =>
        (.returned (some err), tr0 ++ [.readFile dbSourceFilePath, .sqlOpen "mysql" dsn])
      | none =>
        let maxOpenConns : Int := 50
        (.returned none,
          tr0 ++ [.readFile dbSourceFilePath, .sqlOpen "mysql" dsn,
            .setMaxOpenConns maxOpenConns, .setMaxIdleConns (maxOpenConns * 2),
            .setConnMaxLifetime (maxOpenConns * Second)])

/-- Function `main`, up to the blocking call `e.Start(":1323")`. -/
def main (env : Env) : List Event :=
  let tr0 : List Event := [.use "Logger", .use "Recover"]
  match initiDB env with
  | (.returned (some err), tr) => tr0 ++ tr ++ [.panic (.errorString err)]
  | (.panicked v, tr) => tr0 ++ tr ++ [.panic v]
  | (.returned none, tr) =>
    tr0 ++ tr ++ [.route "GET" "/", .route "GET" "/personalities/:id",
      .route "GET" "/personalities", .start ":1323"]

/-! ## Observations on traces -/

/-- Whether the event is a call of `sql.Open`. -/
def Event.opensHandle : Event → Bool
  | .sqlOpen _ _ => true
  | _ => false

/-- Whether the event is one of the three pool settings. -/
def Event.configuresPool : Event → Bool
  | .setMaxOpenConns _ => true
  | .setMaxIdleConns _ => true
  | .setConnMaxLifetime _ => true
  | _ => false

/-- Whether the event registers a route. -/
def Event.registersRoute : Event → Bool
  | .route _ _ => true
  | _ => false

/-- Whether the event starts the HTTP listener. -/
def Event.startsListener : Event → Bool
  | .start _ => true
  | _ => false

/-- Whether the event is a panic. -/
def Event.isPanic : Event → Bool
  | .panic _ => true
  | _ => false

/-- The SQL texts of the `db.Query` calls of a trace, in order. -/
def queriesOf : List Event → List String
  | [] => []
  | .query sql :: tr => sql :: queriesOf tr
  | _ :: tr => queriesOf tr

/-! ## Concrete worlds used to evaluate the program -/

/-- A database whose every query succeeds with a cursor over zero rows. -/
def emptyDB : DB := { Query := fun _ => .ok { rows := [], lasterr := none } }

/-- The row of the spec's scenario, `(7, "Ada", "ada@x.io", T1, T1)`. -/
def adaColumns : Columns :=
  { id := 7, name := "Ada", mail := "ada@x.io", created := ⟨1000⟩, modified := ⟨1000⟩ }

/-- A second row. -/
def bobColumns : Columns :=
  { id := 8, name := "Bob", mail := "bob@x.io", created := ⟨2000⟩, modified := ⟨3000⟩ }

/-- A database holding the two rows above. -/
def twoRowDB : DB :=
  { Query := fun _ => .ok { rows := [.ok adaColumns, .ok bobColumns], lasterr := none } }

/-- A database whose cursor yields one row and then stops on a driver error. -/
def brokenStreamDB : DB :=
  { Query := fun _ =>
      .ok { rows := [.ok adaColumns], lasterr := some (.other "unexpected EOF") } }

/-- A database whose second row does not decode. -/
def badRowDB : DB :=
  { Query := fun _ =>
      .ok { rows := [.ok adaColumns, .bad (.other "converting NULL to string is unsupported")],
            lasterr := none } }

/-- A database that rejects every query. -/
def downDB : DB := { Query := fun _ => .error (.other "connection refused") }

/-- The credentials every concrete world below reads. -/
def sampleSource : DBSource :=
  { Host := "db.local", Port := "3306", User := "app", Password := "s3cret",
    Database := "speakers" }

/-- A world in which both files are present and valid. -/
def goodEnv : Env :=
  { ReadFile := fun path =>
      if path = pemFilePath then .ok "-----BEGIN CERTIFICATE-----"
      else if path = dbSourceFilePath then .ok "host: db.local"
      else .error (.other "no such file or directory")
    AppendCertsFromPEM := fun _ => true
    RegisterTLSConfig := fun _ => none
    Unmarshal := fun _ => .ok (some sampleSource)
    Open := fun _ _ => none }

/-- The error of the MySQL driver for a `tls=` profile that is not registered. -/
def unknownProfile : Error := .other "invalid value / unknown config name: custom"

/-- The world `goodEnv` without the certificate file.  Nothing gets
registered, so `sql.Open` rejects the profile `custom`. -/
def noCertEnv : Env :=
  { goodEnv with
    ReadFile := fun path =>
      if path = dbSourceFilePath then .ok "host: db.local"
      else .error (.other "no such file or directory")
    Open := fun _ _ => some unknownProfile }

/-- The world `goodEnv` with a certificate file that holds no certificate.
Nothing gets registered, so `sql.Open` rejects the profile `custom`. -/
def badCertEnv : Env :=
  { goodEnv with
    AppendCertsFromPEM := fun _ => false
    Open := fun _ _ => some unknownProfile }

/-- The world `goodEnv` without the credential file. -/
def noCredEnv : Env :=
  { goodEnv with
    ReadFile := fun path =>
      if path = pemFilePath then .ok "-----BEGIN CERTIFICATE-----"
      else .error (.other "no such file or directory") }

/-- The world `goodEnv` with a credential file that is not valid YAML. -/
def badYamlEnv : Env :=
  { goodEnv with Unmarshal := fun _ => .error (.other "yaml: did not find expected key") }

/-! ## Lemmas on the query path -/

theorem scanLoop_oks (cols : List Columns) (acc : Slice Personality) :
    (scanLoop (cols.map Row.ok) acc).1 =
      (if cols = [] then acc else some (Slice.toList acc ++ cols.map scanInto), none) := by
  induction cols generalizing acc with
  | nil => simp [scanLoop]
  | cons c cs ih =>
    simp only [List.map_cons, scanLoop, ih]
    cases acc <;> cases cs <;> simp [Slice.append, Slice.toList]

theorem close_not_mem_scanLoop (rows : List Row) (acc : Slice Personality) :
    Event.close ∉ (scanLoop rows acc).2 := by
  induction rows generalizing acc with
  | nil => simp [scanLoop]
  | cons r rs ih =>
    cases r with
    | ok c => simpa [scanLoop] using ih _
    | bad e => simp [scanLoop]

theorem parseInt_error_shape (s : String) (e : Error) (h : (ParseInt s).2 = some e) :
    e = .NumError "ParseInt" s .ErrSyntax ∨ e = .NumError "ParseInt" s .ErrRange := by
  unfold ParseInt at h
  by_cases hs : s = ""
  · rw [if_pos hs] at h
    exact Or.inl (Option.some.inj h).symm
  · rw [if_neg hs] at h
    generalize (match s.data with
      | '+' :: t => (false, t)
      | '-' :: t => (true, t)
      | l => (false, l) : Bool × List Char) = p at h
    obtain ⟨neg, rest⟩ := p
    dsimp only at h
    generalize ParseUint rest = q at h
    obtain ⟨un, k⟩ := q
    rcases k with _ | _ | _ <;> dsimp only at h <;> (try split_ifs at h) <;>
      first
        | exact Or.inl (Option.some.inj h).symm
        | exact Or.inr (Option.some.inj h).symm

/-- Examples of parameters `ParseInt` rejects and accepts. -/
theorem ParseInt_examples :
    ParseInt "abc" = (0, some (.NumError "ParseInt" "abc" .ErrSyntax)) ∧
    ParseInt "" = (0, some (.NumError "ParseInt" "" .ErrSyntax)) ∧
    ParseInt "-" = (0, some (.NumError "ParseInt" "-" .ErrSyntax)) ∧
    ParseInt "1_0" = (0, some (.NumError "ParseInt" "1_0" .ErrSyntax)) ∧
    ParseInt "7 " = (0, some (.NumError "ParseInt" "7 " .ErrSyntax)) ∧
    ParseInt "9223372036854775808" =
      (9223372036854775807, some (.NumError "ParseInt" "9223372036854775808" .ErrRange)) ∧
    ParseInt "-9223372036854775809" =
      (-9223372036854775808, some (.NumError "ParseInt" "-9223372036854775809" .ErrRange)) ∧
    ParseInt "9223372036854775807" = (9223372036854775807, none) ∧
    ParseInt "-9223372036854775808" = (-9223372036854775808, none) ∧
    ParseInt "+7" = (7, none) ∧ ParseInt "007" = (7, none) ∧ ParseInt "-0" = (0, none) := by
  refine ⟨by decide, by decide, by decide, by decide, by decide, by decide, by decide,
    by decide, by decide, by decide, by decide, by decide⟩

/-! ## The handlers: responses -/

/-- C1 (counterexample): for `id = 7` the by-id query of `emptyDB` yields a
cursor with zero rows, and the handler answers 200 with the JSON value `null`,
not with the empty array. -/
theorem C1_null_body_counterexample :
    ParseInt "7" = (7, none) ∧
    (∃ cur, emptyDB.Query (byIDSelect ++ fmtInteger 7) = .ok cur ∧ cur.rows = []) ∧
    (personalityByIDHandler emptyDB "7").1 = .responded 200 .jsonNull ∧
    (personalityByIDHandler emptyDB "7").1 ≠ .responded 200 (.jsonArray []) := by
  refine ⟨by decide, ⟨_, rfl, rfl⟩, by decide, by decide⟩

/-- C1 (amended): for every parameter that parses to an id whose by-id query
yields a cursor with zero rows, the handler runs that one query, closes the
cursor and responds with status 200 and the JSON value `null` (the `nil` slice
returned by `runPersonalityQuery`), whatever ended the iteration. -/
theorem C1_zero_rows_responds_null (db : DB) (param : String) (id : Int) (cur : Rows)
    (hparse : ParseInt param = (id, none))
    (hquery : db.Query (byIDSelect ++ fmtInteger id) = .ok cur)
    (hrows : cur.rows = []) :
    (getPersonalityByID db id).1 = (none, none) ∧
    personalityByIDHandler db param =
      (.responded 200 .jsonNull,
        [.query (byIDSelect ++ fmtInteger id), .logTook "getPersonalityByID", .next, .close,
          .respond 200 .jsonNull]) := by
  have hget : getPersonalityByID db id =
      ((none, none), [.query (byIDSelect ++ fmtInteger id), .logTook "getPersonalityByID",
        .next, .close]) := by
    simp [getPersonalityByID, runPersonalityQuery, runQuery, hquery, hrows, scanLoop]
  refine ⟨by rw [hget], ?_⟩
  simp [personalityByIDHandler, hparse, hget, JSON, jsonBody]

/-- C1 (witness of the amended statement), at `emptyDB` and the parameter `"7"`. -/
theorem C1_zero_rows_responds_null_witness :
    (getPersonalityByID emptyDB 7).1 = (none, none) ∧
    personalityByIDHandler emptyDB "7" =
      (.responded 200 .jsonNull,
        [.query (byIDSelect ++ fmtInteger 7), .logTook "getPersonalityByID", .next, .close,
          .respond 200 .jsonNull]) :=
  C1_zero_rows_responds_null emptyDB "7" 7 { rows := [], lasterr := none }
    (by decide) rfl rfl

/-- C2 (counterexample): for the parameter `"abc"` the handler returns the
`strconv` error, which echo's default error handler answers with status 500,
outside the 400 class. -/
theorem C2_status_500_counterexample :
    (ParseInt "abc").2 ≠ none ∧
    (personalityByIDHandler emptyDB "abc").1 =
      .failed (.NumError "ParseInt" "abc" .ErrSyntax) ∧
    statusOf (personalityByIDHandler emptyDB "abc").1 = 500 ∧
    ¬ (400 ≤ statusOf (personalityByIDHandler emptyDB "abc").1 ∧
        statusOf (personalityByIDHandler emptyDB "abc").1 < 500) := by
  refine ⟨by decide, by decide, by decide, by decide⟩

/-- C2 (amended): for every parameter that `strconv.ParseInt` rejects, the
handler makes no call at all (no query, no response written), and returns the
`*strconv.NumError` of `ParseInt` unchanged; its outcome is never a 200
response, and echo's default error handler answers it with status 500. -/
theorem C2_unparsable_id_fails_without_query (db : DB) (param : String) (err : Error)
    (hparse : (ParseInt param).2 = some err) :
    personalityByIDHandler db param = (.failed err, []) ∧
    (err = .NumError "ParseInt" param .ErrSyntax ∨
      err = .NumError "ParseInt" param .ErrRange) ∧
    (∀ body, (personalityByIDHandler db param).1 ≠ .responded 200 body) ∧
    statusOf (personalityByIDHandler db param).1 = 500 := by
  have hshape := parseInt_error_shape param err hparse
  have hrun : personalityByIDHandler db param = (.failed err, []) := by
    unfold personalityByIDHandler
    generalize ParseInt param = r at hparse
    obtain ⟨v, e⟩ := r
    simp only at hparse
    subst hparse
    rfl
  refine ⟨hrun, hshape, ?_, ?_⟩
  · intro body
    rw [hrun]
    simp
  · rw [hrun]
    rcases hshape with h | h <;> subst h <;> rfl

/-- C2 (witness of the amended statement), at a numeral one above the largest
`int64`. -/
theorem C2_unparsable_id_fails_without_query_witness :
    personalityByIDHandler downDB "9223372036854775808" =
      (.failed (.NumError "ParseInt" "9223372036854775808" .ErrRange), []) ∧
    (Error.NumError "ParseInt" "9223372036854775808" .ErrRange =
        .NumError "ParseInt" "9223372036854775808" .ErrSyntax ∨
      Error.NumError "ParseInt" "9223372036854775808" .ErrRange =
        .NumError "ParseInt" "9223372036854775808" .ErrRange) ∧
    (∀ body, (personalityByIDHandler downDB "9223372036854775808").1 ≠ .responded 200 body) ∧
    statusOf (personalityByIDHandler downDB "9223372036854775808").1 = 500 :=
  C2_unparsable_id_fails_without_query downDB "9223372036854775808"
    (.NumError "ParseInt" "9223372036854775808" .ErrRange) (by decide)

/-! ## The row mapper -/

/-- C5: when the query yields a cursor whose rows all decode (`cols` are their
column values), `runPersonalityQuery` returns a nil error and a sequence with
as many entries as the cursor has rows, whose i-th entry carries the i-th
row's columns: `ID` the 1st (id), `Name` the 2nd (name), `Email` the 3rd
(mail), `CreatedAt` the 4th (created) and `UpdatedAt` the 5th (modified). -/
theorem C5_one_personality_per_row (db : DB) (sql name : String) (cur : Rows)
    (cols : List Columns)
    (hquery : db.Query sql = .ok cur) (hdecode : cur.rows = cols.map Row.ok) :
    (runPersonalityQuery db sql name).1.2 = none ∧
    Slice.len (runPersonalityQuery db sql name).1.1 = cur.rows.length ∧
    ∀ (i : Nat) (c : Columns), cols[i]? = some c →
      ∃ p, (Slice.toList (runPersonalityQuery db sql name).1.1)[i]? = some p ∧
        p.ID = c.id ∧ p.Name = c.name ∧ p.Email = c.mail ∧
        p.CreatedAt = c.created ∧ p.UpdatedAt = c.modified := by
  have hres : (runPersonalityQuery db sql name).1 =
      (if cols = [] then none else some (cols.map scanInto), none) := by
    have h := scanLoop_oks cols none
    simp only [Slice.toList, List.nil_append] at h
    simp only [runPersonalityQuery, runQuery, hquery, hdecode]
    exact h
  have hlist : Slice.toList (runPersonalityQuery db sql name).1.1 = cols.map scanInto := by
    rw [hres]
    by_cases hc : cols = []
    · simp [hc, Slice.toList]
    · simp [hc, Slice.toList]
  refine ⟨by rw [hres], ?_, ?_⟩
  · simp [Slice.len, hlist, hdecode]
  · intro i c hc
    refine ⟨scanInto c, ?_, rfl, rfl, rfl, rfl, rfl⟩
    rw [hlist, List.getElem?_map, hc]
    rfl

/-- C5 (witness): the two-row table. -/
theorem C5_one_personality_per_row_witness :
    (runPersonalityQuery twoRowDB "SELECT 1" "q").1.2 = none ∧
    Slice.len (runPersonalityQuery twoRowDB "SELECT 1" "q").1.1 =
      [Row.ok adaColumns, Row.ok bobColumns].length ∧
    ∀ (i : Nat) (c : Columns), [adaColumns, bobColumns][i]? = some c →
      ∃ p, (Slice.toList (runPersonalityQuery twoRowDB "SELECT 1" "q").1.1)[i]? = some p ∧
        p.ID = c.id ∧ p.Name = c.name ∧ p.Email = c.mail ∧
        p.CreatedAt = c.created ∧ p.UpdatedAt = c.modified :=
  C5_one_personality_per_row twoRowDB "SELECT 1" "q"
    { rows := [.ok adaColumns, .ok bobColumns], lasterr := none } [adaColumns, bobColumns]
    rfl rfl

/-! ## Error propagation on the query path -/

/-- When `db.Query` fails, both handlers return that error, after exactly one
query and without writing a response. -/
theorem query_failure_is_returned (db : DB) (param : String) (id : Int) (err : Error)
    (hparse : ParseInt param = (id, none))
    (hall : db.Query "SELECT id, name, mail, created, modified FROM t_speaker" = .error err)
    (hid : db.Query (byIDSelect ++ fmtInteger id) = .error err) :
    allPersonalitiesHandler db =
      (.failed err, [.query "SELECT id, name, mail, created, modified FROM t_speaker",
        .logTook "getAllPersonalities"]) ∧
    personalityByIDHandler db param =
      (.failed err, [.query (byIDSelect ++ fmtInteger id), .logTook "getPersonalityByID"]) := by
  constructor
  · simp [allPersonalitiesHandler, getAllPersonalities, runPersonalityQuery, runQuery, hall]
  · simp [personalityByIDHandler, hparse, getPersonalityByID, runPersonalityQuery, runQuery,
      hid]

/-- When `Scan` fails on a row after `cols.length` decoded rows, the loop
returns the nil slice and that error. -/
theorem scanLoop_bad (cols : List Columns) (err : Error) (rest : List Row)
    (acc : Slice Personality) :
    (scanLoop (cols.map Row.ok ++ Row.bad err :: rest) acc).1 = (none, some err) := by
  induction cols generalizing acc with
  | nil => simp [scanLoop]
  | cons c cs ih => simp [scanLoop, ih]

/-- When `Scan` fails on a row, `runPersonalityQuery` returns the nil slice
and that error, after exactly one query. -/
theorem scan_failure_is_returned (db : DB) (sql name : String) (cur : Rows)
    (cols : List Columns) (err : Error) (rest : List Row)
    (hquery : db.Query sql = .ok cur)
    (hrows : cur.rows = cols.map Row.ok ++ Row.bad err :: rest) :
    (runPersonalityQuery db sql name).1 = (none, some err) := by
  simp only [runPersonalityQuery, runQuery, hquery, hrows]
  exact scanLoop_bad cols err rest none

/-- C6 (the code at the failing input): the cursor of `brokenStreamDB` yields
one row and then ends on a driver error; both handlers answer 200 with the
one-element array instead of returning the error. -/
theorem C6_iteration_error_is_dropped :
    (∃ cur, brokenStreamDB.Query "SELECT id, name, mail, created, modified FROM t_speaker" =
        .ok cur ∧ cur.lasterr = some (.other "unexpected EOF")) ∧
    (allPersonalitiesHandler brokenStreamDB).1 =
      .responded 200 (.jsonArray [scanInto adaColumns]) ∧
    (personalityByIDHandler brokenStreamDB "7").1 =
      .responded 200 (.jsonArray [scanInto adaColumns]) ∧
    (allPersonalitiesHandler brokenStreamDB).1 ≠ .failed (.other "unexpected EOF") := by
  refine ⟨⟨_, rfl, rfl⟩, by decide, by decide, by decide⟩

/-! ## The cursor is released -/

/-- C7: when `runQuery` hands a cursor to `runPersonalityQuery`, the trace of
`runPersonalityQuery` ends with `rows.Close()` and contains no other close,
whether every row is mapped or `Scan` fails part-way; when `runQuery` fails,
the trace contains no close at all. -/
theorem C7_cursor_closed_exactly_on_return (db : DB) (sql name : String) :
    (∀ cur, db.Query sql = .ok cur →
      ∃ pre, (runPersonalityQuery db sql name).2 = pre ++ [Event.close] ∧
        Event.close ∉ pre ∧ pre = (runQuery db sql name).2 ++ (scanLoop cur.rows none).2) ∧
    (∀ err, db.Query sql = .error err →
      Event.close ∉ (runPersonalityQuery db sql name).2) := by
  constructor
  · intro cur hq
    refine ⟨(runQuery db sql name).2 ++ (scanLoop cur.rows none).2, ?_, ?_, rfl⟩
    · simp [runPersonalityQuery, runQuery, hq]
    · have h := close_not_mem_scanLoop cur.rows none
      simp [runQuery, h]
  · intro err hq
    simp [runPersonalityQuery, runQuery, hq]

/-- C7 (witness): a cursor whose second row fails to decode is closed once, at
the end; a failed query closes nothing. -/
theorem C7_cursor_closed_exactly_on_return_witness :
    (runPersonalityQuery badRowDB "SELECT 1" "q") =
      ((none, some (.other "converting NULL to string is unsupported")),
        [.query "SELECT 1", .logTook "q", .next, .scan, .next, .scan, .close]) ∧
    (∃ pre, (runPersonalityQuery badRowDB "SELECT 1" "q").2 = pre ++ [Event.close] ∧
        Event.close ∉ pre ∧
        pre = (runQuery badRowDB "SELECT 1" "q").2 ++
          (scanLoop [.ok adaColumns,
            .bad (.other "converting NULL to string is unsupported")] none).2) ∧
    Event.close ∉ (runPersonalityQuery downDB "SELECT 1" "q").2 :=
  ⟨by decide,
    (C7_cursor_closed_exactly_on_return badRowDB "SELECT 1" "q").1 _ rfl,
    (C7_cursor_closed_exactly_on_return downDB "SELECT 1" "q").2 _ rfl⟩

/-! ## Bootstrap -/

theorem registerTLSConfig_events (env : Env) :
    ∀ ev ∈ (registerTLSConfig env).2,
      ev = .readFile pemFilePath ∨ ev = .registerTLS "custom" := by
  intro ev hev
  unfold registerTLSConfig at hev
  split at hev
  · simp at hev; exact Or.inl hev
  · split at hev
    · simp at hev; exact Or.inl hev
    · simp at hev; exact hev

/-- On every run `initiDB` carries on after `registerTLSConfig`, whatever it
returned: the read of the credential file follows.  An error `initiDB`
returns is the one of that read, of `yaml.Unmarshal` or of `sql.Open`. -/
theorem initiDB_discards_registerTLSConfig (env : Env) :
    (∃ rest, (initiDB env).2 =
      (registerTLSConfig env).2 ++ Event.readFile dbSourceFilePath :: rest) ∧
    (∀ err, (initiDB env).1 = .returned (some err) →
      env.ReadFile dbSourceFilePath = .error err ∨
      (∃ f, env.ReadFile dbSourceFilePath = .ok f ∧ env.Unmarshal f = .error err) ∨
      (∃ dsn, env.Open "mysql" dsn = some err ∧
        Event.sqlOpen "mysql" dsn ∈ (initiDB env).2)) := by
  cases hread : env.ReadFile dbSourceFilePath with
  | error e =>
    have h : initiDB env =
        (.returned (some e), (registerTLSConfig env).2 ++ [.readFile dbSourceFilePath]) := by
      simp [initiDB, hread]
    rw [h]
    refine ⟨⟨[], rfl⟩, ?_⟩
    intro err he
    simp only [InitResult.returned.injEq, Option.some.injEq] at he
    subst he
    exact Or.inl rfl
  | ok f =>
    cases hyaml : env.Unmarshal f with
    | error e =>
      have h : initiDB env =
          (.returned (some e), (registerTLSConfig env).2 ++ [.readFile dbSourceFilePath]) := by
        simp [initiDB, hread, hyaml]
      rw [h]
      refine ⟨⟨[], rfl⟩, ?_⟩
      intro err he
      simp only [InitResult.returned.injEq, Option.some.injEq] at he
      subst he
      exact Or.inr (Or.inl ⟨f, rfl, hyaml⟩)
    | ok src? =>
      cases src? with
      | none =>
        have h : initiDB env =
            (.panicked .nilDereference,
              (registerTLSConfig env).2 ++ [.readFile dbSourceFilePath]) := by
          simp [initiDB, hread, hyaml]
        rw [h]
        refine ⟨⟨[], rfl⟩, ?_⟩
        intro err he
        simp at he
      | some src =>
        cases hopen : env.Open "mysql" (dataSourceName src) with
        | some e =>
          have h : initiDB env =
              (.returned (some e),
                (registerTLSConfig env).2 ++
                  [.readFile dbSourceFilePath, .sqlOpen "mysql" (dataSourceName src)]) := by
            simp [initiDB, hread, hyaml, hopen]
          rw [h]
          refine ⟨⟨_, rfl⟩, ?_⟩
          intro err he
          simp only [InitResult.returned.injEq, Option.some.injEq] at he
          subst he
          refine Or.inr (Or.inr ⟨dataSourceName src, hopen, ?_⟩)
          simp
        | none =>
          have h : initiDB env =
              (.returned none,
                (registerTLSConfig env).2 ++
                  [.readFile dbSourceFilePath, .sqlOpen "mysql" (dataSourceName src),
                    .setMaxOpenConns 50, .setMaxIdleConns (50 * 2),
                    .setConnMaxLifetime (50 * Second)]) := by
            simp [initiDB, hread, hyaml, hopen]
          rw [h]
          refine ⟨⟨_, rfl⟩, ?_⟩
          intro err he
          simp at he

/-- When the certificate file is read but holds no certificate,
`registerTLSConfig` registers nothing and returns nil. -/
theorem registerTLSConfig_nil_without_certificate (env : Env) (pem : String)
    (hread : env.ReadFile pemFilePath = .ok pem)
    (hcert : env.AppendCertsFromPEM pem = false) :
    registerTLSConfig env = (none, [.readFile pemFilePath]) := by
  simp [registerTLSConfig, hread, hcert]

/-- C3 (the code at the failing inputs): with the certificate file missing
(`noCertEnv`) `registerTLSConfig` returns the read error, and with a
certificate file holding no certificate (`badCertEnv`) it returns nil; in both
worlds it registers nothing, and `initiDB` does not stop there: it reads the
credential file and calls `sql.Open`.  The error `initiDB` returns, and `main`
panics with, is the one `sql.Open` gives for the unregistered profile. -/
theorem C3_certificate_failure_is_not_propagated :
    registerTLSConfig noCertEnv =
      (some (.other "no such file or directory"), [.readFile pemFilePath]) ∧
    registerTLSConfig badCertEnv = (none, [.readFile pemFilePath]) ∧
    initiDB noCertEnv =
      (.returned (some unknownProfile),
        [.readFile pemFilePath, .readFile dbSourceFilePath,
          .sqlOpen "mysql" "app:s3cret@tcp(db.local:3306)/speakers?tls=custom&parseTime=true"]) ∧
    initiDB badCertEnv =
      (.returned (some unknownProfile),
        [.readFile pemFilePath, .readFile dbSourceFilePath,
          .sqlOpen "mysql" "app:s3cret@tcp(db.local:3306)/speakers?tls=custom&parseTime=true"]) ∧
    (initiDB noCertEnv).1 ≠ .returned (registerTLSConfig noCertEnv).1 ∧
    main noCertEnv =
      [.use "Logger", .use "Recover", .readFile pemFilePath, .readFile dbSourceFilePath,
        .sqlOpen "mysql" "app:s3cret@tcp(db.local:3306)/speakers?tls=custom&parseTime=true",
        .panic (.errorString unknownProfile)] ∧
    main badCertEnv = main noCertEnv := by
  refine ⟨by decide, by decide, by decide, by decide, by decide, by decide, by decide⟩

/-- C4: when the credential file cannot be read, or `yaml.Unmarshal` rejects
its content, `initiDB` returns that error having made no call besides reading
the two files and registering the TLS profile (no `sql.Open`, no pool
setting), and `main` panics with it right after `initiDB`: its trace holds no
route registration and no listener start. -/
theorem C4_credential_failure_aborts_startup (env : Env) (err : Error)
    (hcred : env.ReadFile dbSourceFilePath = .error err ∨
      ∃ f, env.ReadFile dbSourceFilePath = .ok f ∧ env.Unmarshal f = .error err) :
    (initiDB env).1 = .returned (some err) ∧
    (∀ ev ∈ (initiDB env).2, ev.opensHandle = false ∧ ev.configuresPool = false) ∧
    main env =
      [.use "Logger", .use "Recover"] ++ (initiDB env).2 ++ [.panic (.errorString err)] ∧
    (∀ ev ∈ main env, ev.registersRoute = false ∧ ev.startsListener = false ∧
      ev.opensHandle = false ∧ ev.configuresPool = false) := by
  have hinit : initiDB env =
      (.returned (some err), (registerTLSConfig env).2 ++ [.readFile dbSourceFilePath]) := by
    rcases hcred with h | ⟨f, h1, h2⟩
    · simp [initiDB, h]
    · simp [initiDB, h1, h2]
  have hev : ∀ ev ∈ (initiDB env).2, ev.registersRoute = false ∧ ev.startsListener = false ∧
      ev.opensHandle = false ∧ ev.configuresPool = false := by
    intro ev hmem
    rw [hinit] at hmem
    simp only [List.mem_append, List.mem_singleton] at hmem
    rcases hmem with h | h
    · rcases registerTLSConfig_events env ev h with h | h <;> subst h <;>
        simp [Event.registersRoute, Event.startsListener, Event.opensHandle,
          Event.configuresPool]
    · subst h
      simp [Event.registersRoute, Event.startsListener, Event.opensHandle, Event.configuresPool]
  have hmain : main env =
      [.use "Logger", .use "Recover"] ++ (initiDB env).2 ++ [.panic (.errorString err)] := by
    simp [main, hinit]
  refine ⟨by rw [hinit], fun ev h => ⟨(hev ev h).2.2.1, (hev ev h).2.2.2⟩, hmain, ?_⟩
  intro ev hmem
  rw [hmain] at hmem
  simp only [List.mem_append, List.mem_cons, List.mem_singleton, List.not_mem_nil,
    or_false] at hmem
  rcases hmem with ((h | h) | h) | h
  · subst h
    simp [Event.registersRoute, Event.startsListener, Event.opensHandle, Event.configuresPool]
  · subst h
    simp [Event.registersRoute, Event.startsListener, Event.opensHandle, Event.configuresPool]
  · exact hev ev h
  · subst h
    simp [Event.registersRoute, Event.startsListener, Event.opensHandle, Event.configuresPool]

/-- C4 (witness): the world without the credential file, and the world whose
credential file is rejected by the YAML decoder. -/
theorem C4_credential_failure_aborts_startup_witness :
    ((initiDB noCredEnv).1 = .returned (some (.other "no such file or directory")) ∧
      (∀ ev ∈ (initiDB noCredEnv).2, ev.opensHandle = false ∧ ev.configuresPool = false) ∧
      main noCredEnv =
        [.use "Logger", .use "Recover"] ++ (initiDB noCredEnv).2 ++
          [.panic (.errorString (.other "no such file or directory"))] ∧
      (∀ ev ∈ main noCredEnv, ev.registersRoute = false ∧ ev.startsListener = false ∧
        ev.opensHandle = false ∧ ev.configuresPool = false)) ∧
    (initiDB badYamlEnv).1 = .returned (some (.other "yaml: did not find expected key")) ∧
    main noCredEnv =
      [.use "Logger", .use "Recover", .readFile pemFilePath, .registerTLS "custom",
        .readFile dbSourceFilePath,
        .panic (.errorString (.other "no such file or directory"))] :=
  ⟨C4_credential_failure_aborts_startup noCredEnv (.other "no such file or directory")
      (Or.inl rfl),
    (C4_credential_failure_aborts_startup badYamlEnv (.other "yaml: did not find expected key")
      (Or.inr ⟨"host: db.local", rfl, rfl⟩)).1,
    by decide⟩

/-- C8: when `initiDB` returns nil, its trace ends with `sql.Open` followed
by the three pool settings, once each: at most 50 open connections, at most
100 idle ones (twice 50), and a connection lifetime of 50 seconds; nothing
before `sql.Open` touches the pool. -/
theorem C8_pool_configured_after_open (env : Env)
    (hok : (initiDB env).1 = .returned none) :
    ∃ pre dsn, (initiDB env).2 =
        pre ++ [.sqlOpen "mysql" dsn, .setMaxOpenConns 50, .setMaxIdleConns 100,
          .setConnMaxLifetime (50 * Second)] ∧
      (∀ ev ∈ pre, ev.configuresPool = false ∧ ev.opensHandle = false) ∧
      (100 : Int) = 2 * 50 ∧ Second = 1000000000 := by
  unfold initiDB at hok ⊢
  cases hread : env.ReadFile dbSourceFilePath with
  | error e => simp [hread] at hok
  | ok f =>
    cases hyaml : env.Unmarshal f with
    | error e => simp [hread, hyaml] at hok
    | ok src? =>
      cases src? with
      | none => simp [hread, hyaml] at hok
      | some src =>
        cases hopen : env.Open "mysql" (dataSourceName src) with
        | some e => simp [hread, hyaml, hopen] at hok
        | none =>
          refine ⟨(registerTLSConfig env).2 ++ [.readFile dbSourceFilePath],
            dataSourceName src, ?_, ?_, by norm_num, rfl⟩
          · simp [hread, hyaml, hopen]
          · intro ev hmem
            simp only [List.mem_append, List.mem_singleton] at hmem
            rcases hmem with h | h
            · rcases registerTLSConfig_events env ev h with h | h <;> subst h <;>
                simp [Event.opensHandle, Event.configuresPool]
            · subst h
              simp [Event.opensHandle, Event.configuresPool]

/-- C8 (witness): the world in which both files are valid. -/
theorem C8_pool_configured_after_open_witness :
    (initiDB goodEnv).1 = .returned none ∧
    ∃ pre dsn, (initiDB goodEnv).2 =
        pre ++ [.sqlOpen "mysql" dsn, .setMaxOpenConns 50, .setMaxIdleConns 100,
          .setConnMaxLifetime (50 * Second)] ∧
      (∀ ev ∈ pre, ev.configuresPool = false ∧ ev.opensHandle = false) ∧
      (100 : Int) = 2 * 50 ∧ Second = 1000000000 :=
  ⟨by decide, C8_pool_configured_after_open goodEnv (by decide)⟩

/-- When the credential file is read and decoded to `src`, the trace of
`initiDB` is the trace of `registerTLSConfig`, then the read of the credential
file, then `sql.Open("mysql", dsn)`, then pool settings only; a registration
in it uses the profile name of the `dsn`. -/
theorem initiDB_trace_of_loaded_source (env : Env) (f : String) (src : DBSource)
    (hread : env.ReadFile dbSourceFilePath = .ok f)
    (hyaml : env.Unmarshal f = .ok (some src)) :
    ∃ post, (initiDB env).2 =
        (registerTLSConfig env).2 ++
          [.readFile dbSourceFilePath,
            .sqlOpen "mysql"
              (src.User ++ ":" ++ src.Password ++ "@tcp(" ++ src.Host ++ ":" ++ src.Port ++
                ")/" ++ src.Database ++ "?tls=custom&parseTime=true")] ++ post ∧
      (∀ ev ∈ post, ev.configuresPool = true) ∧
      (∀ ev ∈ (registerTLSConfig env).2,
        ev = .readFile pemFilePath ∨ ev = .registerTLS "custom") ∧
      (∀ name, Event.registerTLS name ∈ (initiDB env).2 →
        dataSourceName src =
          src.User ++ ":" ++ src.Password ++ "@tcp(" ++ src.Host ++ ":" ++ src.Port ++
            ")/" ++ src.Database ++ "?tls=" ++ name ++ "&parseTime=true") := by
  have hreg := registerTLSConfig_events env
  have hname : ∀ post : List Event, (∀ ev ∈ post, ev.configuresPool = true) →
      ∀ name, Event.registerTLS name ∈
        (registerTLSConfig env).2 ++
          [.readFile dbSourceFilePath, .sqlOpen "mysql" (dataSourceName src)] ++ post →
      name = "custom" := by
    intro post hpost name hmem
    simp only [List.mem_append, List.mem_cons, List.mem_singleton, List.not_mem_nil,
      or_false] at hmem
    rcases hmem with (h | h | h) | h
    · rcases hreg _ h with h | h
      · exact absurd h (by simp)
      · exact Event.registerTLS.inj h
    · exact absurd h (by simp)
    · exact absurd h (by simp)
    · have := hpost _ h
      simp [Event.configuresPool] at this
  have hdsn : ∀ name, name = "custom" → dataSourceName src =
      src.User ++ ":" ++ src.Password ++ "@tcp(" ++ src.Host ++ ":" ++ src.Port ++
        ")/" ++ src.Database ++ "?tls=" ++ name ++ "&parseTime=true" := by
    intro name h
    subst h
    simp only [dataSourceName, String.append_assoc]
    rfl
  cases hopen : env.Open "mysql" (dataSourceName src) with
  | some e =>
    have htr : (initiDB env).2 = (registerTLSConfig env).2 ++
        [.readFile dbSourceFilePath, .sqlOpen "mysql" (dataSourceName src)] ++ [] := by
      simp [initiDB, hread, hyaml, hopen]
    refine ⟨[], htr, by simp, hreg, ?_⟩
    intro name hmem
    rw [htr] at hmem
    exact hdsn name (hname [] (by simp) name hmem)
  | none =>
    have htr : (initiDB env).2 = (registerTLSConfig env).2 ++
        [.readFile dbSourceFilePath, .sqlOpen "mysql" (dataSourceName src)] ++
        [.setMaxOpenConns 50, .setMaxIdleConns (50 * 2), .setConnMaxLifetime (50 * Second)] := by
      simp [initiDB, hread, hyaml, hopen]
    have hpost : ∀ ev ∈ ([.setMaxOpenConns 50, .setMaxIdleConns (50 * 2),
        .setConnMaxLifetime (50 * Second)] : List Event), ev.configuresPool = true := by
      intro ev hmem
      simp only [List.mem_cons, List.mem_singleton, List.not_mem_nil, or_false] at hmem
      rcases hmem with h | h | h <;> subst h <;> rfl
    refine ⟨_, htr, hpost, hreg, ?_⟩
    intro name hmem
    rw [htr] at hmem
    exact hdsn name (hname _ hpost name hmem)

/-- The trace of `registerTLSConfig`: the read of the certificate file first,
followed by the registration under `custom` exactly when the file is read and
a certificate is parsed from it. -/
theorem registerTLSConfig_trace (env : Env) :
    ((registerTLSConfig env).2 = [.readFile pemFilePath] ∨
      (registerTLSConfig env).2 = [.readFile pemFilePath, .registerTLS "custom"]) ∧
    (∀ pem, env.ReadFile pemFilePath = .ok pem → env.AppendCertsFromPEM pem = true →
      registerTLSConfig env =
        (env.RegisterTLSConfig "custom", [.readFile pemFilePath, .registerTLS "custom"])) := by
  constructor
  · unfold registerTLSConfig
    cases env.ReadFile pemFilePath with
    | error e => exact Or.inl rfl
    | ok pem =>
      cases hcert : env.AppendCertsFromPEM pem with
      | false => exact Or.inl (by simp [hcert])
      | true => exact Or.inr (by simp [hcert])
  · intro pem hpem hcert
    simp [registerTLSConfig, hpem, hcert]

/-- C10: when the credential file is read and decoded to `src`, `initiDB`
starts with `registerTLSConfig` (the read of the certificate file is its
first call), and when that file is read and a certificate parsed from it, the
trace is: read of the certificate file, registration of the pool under the
name `custom`, read of the credential file, `sql.Open("mysql", dsn)`, then
pool settings only.  In every case `dsn` is exactly
`User:Password@tcp(Host:Port)/Database?tls=custom&parseTime=true`, the call
of `sql.Open` comes after the whole trace of `registerTLSConfig`, which holds
nothing but that read and that registration, and every registration uses the
profile name of the `dsn`. -/
theorem C10_data_source_name (env : Env) (f : String) (src : DBSource)
    (hread : env.ReadFile dbSourceFilePath = .ok f)
    (hyaml : env.Unmarshal f = .ok (some src)) :
    (∃ rest, (initiDB env).2 = Event.readFile pemFilePath :: rest) ∧
    (∀ pem, env.ReadFile pemFilePath = .ok pem → env.AppendCertsFromPEM pem = true →
      ∃ post, (initiDB env).2 =
          [.readFile pemFilePath, .registerTLS "custom", .readFile dbSourceFilePath,
            .sqlOpen "mysql"
              (src.User ++ ":" ++ src.Password ++ "@tcp(" ++ src.Host ++ ":" ++ src.Port ++
                ")/" ++ src.Database ++ "?tls=custom&parseTime=true")] ++ post ∧
        (∀ ev ∈ post, ev.configuresPool = true)) ∧
    ((registerTLSConfig env).2 = [.readFile pemFilePath] ∨
      (registerTLSConfig env).2 = [.readFile pemFilePath, .registerTLS "custom"]) ∧
    ∃ post, (initiDB env).2 =
        (registerTLSConfig env).2 ++
          [.readFile dbSourceFilePath,
            .sqlOpen "mysql"
              (src.User ++ ":" ++ src.Password ++ "@tcp(" ++ src.Host ++ ":" ++ src.Port ++
                ")/" ++ src.Database ++ "?tls=custom&parseTime=true")] ++ post ∧
      (∀ ev ∈ post, ev.configuresPool = true) ∧
      (∀ ev ∈ (registerTLSConfig env).2,
        ev = .readFile pemFilePath ∨ ev = .registerTLS "custom") ∧
      (∀ name, Event.registerTLS name ∈ (initiDB env).2 →
        dataSourceName src =
          src.User ++ ":" ++ src.Password ++ "@tcp(" ++ src.Host ++ ":" ++ src.Port ++
            ")/" ++ src.Database ++ "?tls=" ++ name ++ "&parseTime=true") := by
  have hold := initiDB_trace_of_loaded_source env f src hread hyaml
  have htls := registerTLSConfig_trace env
  obtain ⟨post, htr, hpost, hrest⟩ := hold
  refine ⟨?_, ?_, htls.1, post, htr, hpost, hrest⟩
  · rcases htls.1 with h | h
    · exact ⟨_, by rw [htr, h]; rfl⟩
    · exact ⟨_, by rw [htr, h]; rfl⟩
  · intro pem hpem hcert
    refine ⟨post, ?_, hpost⟩
    rw [htr, htls.2 pem hpem hcert]
    rfl

/-- C10 (witness): the world in which both files are valid. -/
theorem C10_data_source_name_witness :
    (initiDB goodEnv).2 =
      [.readFile pemFilePath, .registerTLS "custom", .readFile dbSourceFilePath,
        .sqlOpen "mysql" "app:s3cret@tcp(db.local:3306)/speakers?tls=custom&parseTime=true",
        .setMaxOpenConns 50, .setMaxIdleConns 100, .setConnMaxLifetime 50000000000] ∧
    (∃ rest, (initiDB goodEnv).2 = Event.readFile pemFilePath :: rest) ∧
    (∃ post, (initiDB goodEnv).2 =
        [.readFile pemFilePath, .registerTLS "custom", .readFile dbSourceFilePath,
          .sqlOpen "mysql"
            (sampleSource.User ++ ":" ++ sampleSource.Password ++ "@tcp(" ++
              sampleSource.Host ++ ":" ++ sampleSource.Port ++
              ")/" ++ sampleSource.Database ++ "?tls=custom&parseTime=true")] ++ post ∧
      (∀ ev ∈ post, ev.configuresPool = true)) ∧
    ((registerTLSConfig goodEnv).2 = [.readFile pemFilePath] ∨
      (registerTLSConfig goodEnv).2 = [.readFile pemFilePath, .registerTLS "custom"]) ∧
    ∃ post, (initiDB goodEnv).2 =
        (registerTLSConfig goodEnv).2 ++
          [.readFile dbSourceFilePath,
            .sqlOpen "mysql"
              (sampleSource.User ++ ":" ++ sampleSource.Password ++ "@tcp(" ++
                sampleSource.Host ++ ":" ++ sampleSource.Port ++
                ")/" ++ sampleSource.Database ++ "?tls=custom&parseTime=true")] ++ post ∧
      (∀ ev ∈ post, ev.configuresPool = true) ∧
      (∀ ev ∈ (registerTLSConfig goodEnv).2,
        ev = .readFile pemFilePath ∨ ev = .registerTLS "custom") ∧
      (∀ name, Event.registerTLS name ∈ (initiDB goodEnv).2 →
        dataSourceName sampleSource =
          sampleSource.User ++ ":" ++ sampleSource.Password ++ "@tcp(" ++
            sampleSource.Host ++ ":" ++ sampleSource.Port ++
            ")/" ++ sampleSource.Database ++ "?tls=" ++ name ++ "&parseTime=true") :=
  have h := C10_data_source_name goodEnv "host: db.local" sampleSource rfl rfl
  ⟨by decide, h.1, h.2.1 "-----BEGIN CERTIFICATE-----" rfl rfl, h.2.2.1, h.2.2.2⟩

/-! ## The SQL text of the by-id query -/

theorem digitByte_toNat (d : Nat) (hd : d < 10) : (digitByte d).toNat = 48 + d := by
  interval_cases d <;> rfl

theorem digitByte_isDigit (d : Nat) (hd : d < 10) : (digitByte d).isDigit = true := by
  interval_cases d <;> rfl

theorem fmtDigits_append (fuel u : Nat) (buf : List Char) :
    fmtDigits fuel u buf = fmtDigits fuel u [] ++ buf := by
  induction fuel generalizing u buf with
  | zero => simp [fmtDigits]
  | succ k ih =>
    unfold fmtDigits
    by_cases hu : u ≥ 10
    · simp only [if_pos hu]
      rw [ih (u / 10) (digitByte (u - u / 10 * 10) :: buf),
        ih (u / 10) [digitByte (u - u / 10 * 10)]]
      simp
    · simp only [if_neg hu]
      simp

theorem fmtDigits_succ (fuel u : Nat) :
    fmtDigits (fuel + 1) u [] =
      if u ≥ 10 then fmtDigits fuel (u / 10) [] ++ [digitByte (u % 10)] else [digitByte u] := by
  have hmod : u - u / 10 * 10 = u % 10 := by omega
  conv_lhs => unfold fmtDigits
  by_cases hu : u ≥ 10
  · simp only [if_pos hu, hmod]
    exact fmtDigits_append fuel (u / 10) [digitByte (u % 10)]
  · simp only [if_neg hu]

theorem fmtDigits_isDigit (fuel u : Nat) (hu : u < 10 ^ (fuel + 1)) :
    fmtDigits fuel u [] ≠ [] ∧ ∀ c ∈ fmtDigits fuel u [], c.isDigit = true := by
  induction fuel generalizing u with
  | zero =>
    have hu' : u < 10 := by simpa using hu
    simp [fmtDigits, digitByte_isDigit u hu']
  | succ k ih =>
    rw [fmtDigits_succ]
    by_cases h10 : u ≥ 10
    · have hk : u / 10 < 10 ^ (k + 1) := by
        rw [Nat.div_lt_iff_lt_mul (by norm_num)]
        calc u < 10 ^ (k + 1 + 1) := hu
          _ = 10 ^ (k + 1) * 10 := by ring
      have hd := digitByte_isDigit (u % 10) (Nat.mod_lt _ (by norm_num))
      simp only [if_pos h10]
      refine ⟨by simp, ?_⟩
      intro c hc
      simp only [List.mem_append, List.mem_singleton] at hc
      rcases hc with h | h
      · exact (ih (u / 10) hk).2 c h
      · rw [h]; exact hd
    · have hu' : u < 10 := by omega
      simp [if_neg h10, digitByte_isDigit u hu']

theorem parseUintLoop_digit (d n : Nat) (cs : List Char) (hd : d < 10)
    (hn : n * 10 + d < 2 ^ 64) :
    parseUintLoop (digitByte d :: cs) n = parseUintLoop cs (n * 10 + d) := by
  have h0 : '0'.toNat = 48 := rfl
  have h9 : '9'.toNat = 57 := rfl
  have ht := digitByte_toNat d hd
  have hc : '0'.toNat ≤ (digitByte d).toNat ∧ (digitByte d).toNat ≤ '9'.toNat := by
    rw [ht, h0, h9]; omega
  have hsub : (digitByte d).toNat - '0'.toNat = d := by rw [ht, h0]; omega
  have hmax : maxUint64 = 18446744073709551615 := by norm_num [maxUint64]
  have hn' : n * 10 + d < 18446744073709551616 := by norm_num at hn; exact hn
  rw [parseUintLoop]
  simp only [if_pos hc, hsub]
  have h1 : ¬ d ≥ 10 := by omega
  have h2 : ¬ n ≥ maxUint64 / 10 + 1 := by rw [hmax]; omega
  have h3 : (n * 10) % 2 ^ 64 = n * 10 := Nat.mod_eq_of_lt (by omega)
  have h4 : (n * 10 + d) % 2 ^ 64 = n * 10 + d := Nat.mod_eq_of_lt hn
  have h5 : ¬ (n * 10 + d < n * 10 ∨ n * 10 + d > maxUint64) := by rw [hmax]; omega
  simp only [if_neg h1, if_neg h2, h3, h4, if_neg h5]

theorem parseUintLoop_fmtDigits (fuel u : Nat) (cs : List Char)
    (hu : u < 10 ^ (fuel + 1)) (h64 : u < 2 ^ 64) :
    parseUintLoop (fmtDigits fuel u [] ++ cs) 0 = parseUintLoop cs u := by
  induction fuel generalizing u cs with
  | zero =>
    have hu' : u < 10 := by simpa using hu
    have h := parseUintLoop_digit u 0 cs hu' (by omega)
    simpa [fmtDigits] using h
  | succ k ih =>
    rw [fmtDigits_succ]
    by_cases h10 : u ≥ 10
    · have hk : u / 10 < 10 ^ (k + 1) := by
        rw [Nat.div_lt_iff_lt_mul (by norm_num)]
        calc u < 10 ^ (k + 1 + 1) := hu
          _ = 10 ^ (k + 1) * 10 := by ring
      have hdiv : u / 10 * 10 + u % 10 = u := by omega
      rw [if_pos h10, List.append_assoc, List.singleton_append,
        ih (u / 10) _ hk (by omega),
        parseUintLoop_digit (u % 10) (u / 10) cs (Nat.mod_lt _ (by norm_num))
          (by rw [hdiv]; exact h64),
        hdiv]
    · have hu' : u < 10 := by omega
      have h := parseUintLoop_digit u 0 cs hu' (by omega)
      rw [if_neg h10, List.singleton_append, h]
      simp

theorem ParseUint_fmtDigits (u : Nat) (h64 : u < 2 ^ 64) :
    ParseUint (fmtDigits 20 u []) = (u, none) := by
  have hu : u < 10 ^ (20 + 1) := by
    calc u < 2 ^ 64 := h64
      _ ≤ 10 ^ (20 + 1) := by norm_num
  have h := parseUintLoop_fmtDigits 20 u [] hu h64
  rw [List.append_nil] at h
  unfold ParseUint
  rw [if_neg (fmtDigits_isDigit 20 u hu).1, h]
  rfl

theorem ParseInt_mk_minus (ds : List Char) (u : Nat) (hds : ParseUint ds = (u, none))
    (hu : u ≤ 2 ^ 63) :
    ParseInt (String.mk ('-' :: ds)) = (toInt64 (-toInt64 (u : Int)), none) := by
  have hne : String.mk ('-' :: ds) ≠ "" := by
    intro h
    have := congrArg String.data h
    simp at this
  have hcut : ¬ u > 2 ^ 63 := by omega
  unfold ParseInt
  rw [if_neg hne]
  simp only [hds]
  have hcut' : u ≤ 9223372036854775808 := by omega
  simp [hcut']

theorem ParseInt_mk_digit (c : Char) (t : List Char) (u : Nat) (hc : c.isDigit = true)
    (hds : ParseUint (c :: t) = (u, none)) (hu : u < 2 ^ 63) :
    ParseInt (String.mk (c :: t)) = (toInt64 (u : Int), none) := by
  have hne : String.mk (c :: t) ≠ "" := by
    intro h
    have := congrArg String.data h
    simp at this
  have hsign : (match c :: t with
      | '+' :: t => (false, t)
      | '-' :: t => (true, t)
      | l => (false, l) : Bool × List Char) = (false, c :: t) := by
    split
    · next h =>
      have hc' : c = '+' := (List.cons.inj h).1
      rw [hc'] at hc
      exact absurd hc (by decide)
    · next h =>
      have hc' : c = '-' := (List.cons.inj h).1
      rw [hc'] at hc
      exact absurd hc (by decide)
    · rfl
  have hcut : ¬ u ≥ 2 ^ 63 := by omega
  unfold ParseInt
  rw [if_neg hne]
  simp only [hsign, hds]
  have hcut' : u < 9223372036854775808 := by omega
  simp [hcut']

theorem ParseInt_fmtInteger (id : Int) (hlo : -2 ^ 63 ≤ id) (hhi : id < 2 ^ 63) :
    ParseInt (fmtInteger id) = (id, none) := by
  have hp : (10 : Nat) ^ (20 + 1) = 1000000000000000000000 := by norm_num
  by_cases hneg : id < 0
  · have hu : (-id).toNat % 18446744073709551616 = (-id).toNat :=
      Nat.mod_eq_of_lt (by omega)
    have hle : (-id).toNat ≤ 2 ^ 63 := by omega
    have hfmt : fmtInteger id = String.mk ('-' :: fmtDigits 20 (-id).toNat []) := by
      simp [fmtInteger, hneg, hu]
    rw [hfmt, ParseInt_mk_minus _ _ (ParseUint_fmtDigits _ (by omega)) hle]
    have : toInt64 (-toInt64 (((-id).toNat : Nat) : Int)) = id := by
      unfold toInt64
      omega
    rw [this]
  · have hu : id.toNat % 18446744073709551616 = id.toNat := Nat.mod_eq_of_lt (by omega)
    have hlt : id.toNat < 2 ^ 63 := by omega
    have hfmt : fmtInteger id = String.mk (fmtDigits 20 id.toNat []) := by
      simp [fmtInteger, hneg, hu]
    have hdig := fmtDigits_isDigit 20 id.toNat (by rw [hp]; omega)
    have hparse := ParseUint_fmtDigits id.toNat (by omega)
    rw [hfmt]
    cases hds : fmtDigits 20 id.toNat [] with
    | nil => exact absurd hds hdig.1
    | cons c t =>
      rw [hds] at hparse hdig
      rw [ParseInt_mk_digit c t id.toNat (hdig.2 c (by simp)) hparse hlt]
      have : toInt64 ((id.toNat : Nat) : Int) = id := by
        unfold toInt64
        omega
      rw [this]

theorem queriesOf_append (a b : List Event) :
    queriesOf (a ++ b) = queriesOf a ++ queriesOf b := by
  induction a with
  | nil => rfl
  | cons ev tr ih => cases ev <;> simp [queriesOf, ih]

theorem queriesOf_scanLoop (rows : List Row) (acc : Slice Personality) :
    queriesOf (scanLoop rows acc).2 = [] := by
  induction rows generalizing acc with
  | nil => simp [scanLoop, queriesOf]
  | cons r rs ih =>
    cases r with
    | ok c => simpa [scanLoop, queriesOf] using ih _
    | bad e => simp [scanLoop, queriesOf]

theorem queriesOf_runPersonalityQuery (db : DB) (sql name : String) :
    queriesOf (runPersonalityQuery db sql name).2 = [sql] := by
  unfold runPersonalityQuery runQuery
  cases db.Query sql with
  | error e => simp [queriesOf]
  | ok rows => simp [queriesOf_append, queriesOf_scanLoop, queriesOf]

/-- C9: for every `int64` value `id`, the only SQL text `getPersonalityByID`
hands to `db.Query` is the SELECT statement followed by `fmtInteger id`, the
`%d` rendering of `id`.  That rendering is a non-empty run of decimal digits,
preceded by a single `-` exactly when `id` is negative, and `ParseInt` reads
it back as `id`.  So for every parameter that parses to `id`, whatever its
spelling, the handler issues exactly that one SQL text. -/
theorem C9_by_id_sql_text (id : Int) (hlo : -2 ^ 63 ≤ id) (hhi : id < 2 ^ 63) :
    (∀ db : DB, queriesOf (getPersonalityByID db id).2 =
      ["SELECT id, name, mail, created, modified FROM t_speaker WHERE id = " ++
        fmtInteger id]) ∧
    (∃ ds : List Char, ds ≠ [] ∧ (∀ c ∈ ds, c.isDigit = true) ∧
      (fmtInteger id).data = (if id < 0 then ['-'] else []) ++ ds) ∧
    ParseInt (fmtInteger id) = (id, none) ∧
    (∀ (db : DB) (param : String), ParseInt param = (id, none) →
      queriesOf (personalityByIDHandler db param).2 =
        ["SELECT id, name, mail, created, modified FROM t_speaker WHERE id = " ++
          fmtInteger id]) := by
  have hget : ∀ db : DB, queriesOf (getPersonalityByID db id).2 =
      ["SELECT id, name, mail, created, modified FROM t_speaker WHERE id = " ++
        fmtInteger id] := by
    intro db
    unfold getPersonalityByID
    rw [queriesOf_runPersonalityQuery]
    rfl
  refine ⟨hget, ?_, ParseInt_fmtInteger id hlo hhi, ?_⟩
  · have hdig := fmtDigits_isDigit 20
      ((if decide (id < 0) = true then -id else id).toNat % 2 ^ 64)
      (lt_of_lt_of_le (Nat.mod_lt _ (by norm_num)) (by norm_num))
    refine ⟨_, hdig.1, hdig.2, ?_⟩
    by_cases hneg : id < 0 <;> simp [fmtInteger, hneg]
  · intro db param hparse
    have h := hget db
    unfold personalityByIDHandler
    rw [hparse]
    dsimp only
    generalize getPersonalityByID db id = r at h
    obtain ⟨⟨res, err⟩, tr⟩ := r
    cases err with
    | some e => simpa using h
    | none =>
      simp only [JSON, queriesOf_append] at h ⊢
      rw [h]
      rfl

/-- C9 (witness): `id = 7`; the spellings `"7"`, `"+7"` and `"007"` all lead
to the SQL text ending in `id = 7`. -/
theorem C9_by_id_sql_text_witness :
    (-2 ^ 63 ≤ (7 : Int) ∧ (7 : Int) < 2 ^ 63) ∧
    ∀ db : DB,
      queriesOf (personalityByIDHandler db "7").2 =
        ["SELECT id, name, mail, created, modified FROM t_speaker WHERE id = 7"] ∧
      queriesOf (personalityByIDHandler db "+7").2 =
        ["SELECT id, name, mail, created, modified FROM t_speaker WHERE id = 7"] ∧
      queriesOf (personalityByIDHandler db "007").2 =
        ["SELECT id, name, mail, created, modified FROM t_speaker WHERE id = 7"] :=
  have h := C9_by_id_sql_text 7 (by norm_num) (by norm_num)
  have e : "SELECT id, name, mail, created, modified FROM t_speaker WHERE id = " ++
      fmtInteger 7 =
      "SELECT id, name, mail, created, modified FROM t_speaker WHERE id = 7" := by decide
  ⟨⟨by norm_num, by norm_num⟩, fun db =>
    ⟨e ▸ h.2.2.2 db "7" (by decide), e ▸ h.2.2.2 db "+7" (by decide),
      e ▸ h.2.2.2 db "007" (by decide)⟩⟩

end App
